import Mathlib

/-!
Verification development for the UX-Audit Figma plugin (TypeScript sources).

Shallow embedding notes, applying to the whole file:

* Machine numbers (font sizes, coordinates, audit scores in 0..1) are modelled
  as rationals `ℚ`; integer scores as `Int`.  `Math.round` is modelled by
  `jsRound` (round half up, as JavaScript does).
* The WCAG luminance/contrast computation (`relativeLuminance`,
  `calculateContrastRatio`) raises channels to the power 2.4, which is not
  rational-representable.  Every function that consumes a computed contrast
  ratio is therefore parametrised by an abstract `contrastOf : Color → Color → ℚ`
  standing for `calculateContrastRatio` composed with the luminance math; all
  statements about the contrast *policy* are relative to the computed ratio,
  exactly as the specification phrases them ("ratio exactly 4.0").
* TypeScript `undefined`/`null`/optional values are modelled with `Option`.
  The mixed-font-size sentinel (`fontSize` not a number) is `none`.
* Exceptions thrown while reading a node's properties (e.g. malformed fill
  data) are modelled by the `throws : Option String` field of `NodeData`:
  `some msg` means the first property access in the analyzer's `try` block
  throws an error with message `msg`.  The leaf checks' own swallowing
  `try/catch` blocks (which only `console.error`) are observationally
  equivalent to this model, because a node whose property accesses throw
  contributes no issues from those leaf checks.
* String formatting of numbers inside issue descriptions (`toFixed`) is
  elided: descriptions keep their constant text.  No claim depends on the
  formatted numbers.
* JavaScript reference identity (`child !== node`) is modelled by comparing
  the `id` field of `NodeData`; distinct nodes of a document carry distinct
  ids.
-/

/-- Severity of an issue, from src/UXAudit/src/types.ts (`'error' | 'warning' | 'info'`). -/
inductive Severity where
  | error
  | warning
  | info
deriving DecidableEq, Repr

/-- Category of an issue, from src/UXAudit/src/types.ts
(`'accessibility' | 'seo' | 'performance' | 'heuristic'`). -/
inductive IssueType where
  | accessibility
  | seo
  | performance
  | heuristic
deriving DecidableEq, Repr

/-- Export format enum from src/UXAudit/src/types.ts (`'markdown' | 'pdf' | 'html'`). -/
inductive ExportFormat where
  | markdown
  | pdf
  | html
deriving DecidableEq, Repr

/-- One detected audit finding, from the `Issue` interface in
src/UXAudit/src/types.ts.  The optional `element` field is the element name
attached by the heuristic checks.  The optional `node` reference of the TS
interface is not modelled (it is never consumed by the audited logic). -/
structure Issue where
  type : IssueType
  severity : Severity
  title : String
  description : String
  remediation : Option String := none
  element : Option String := none
deriving DecidableEq, Repr

/-- Plugin settings record, from the `Settings` interface in
src/UXAudit/src/types.ts. -/
structure Settings where
  accessibilityChecks : Bool
  heuristicChecks : Bool
  seoChecks : Bool
  performanceChecks : Bool
  exportFormat : ExportFormat
  includeScreenshots : Bool
  includeRemediation : Bool
  lighthouseApiKey : String
  useAI : Bool
deriving DecidableEq, Repr

/-- Default settings of the main plugin, `defaultSettings` in
src/UXAudit/src/code.ts lines 7-17. -/
def defaultSettings : Settings :=
  { accessibilityChecks := true
    heuristicChecks := true
    seoChecks := true
    performanceChecks := true
    exportFormat := ExportFormat.markdown
    includeScreenshots := false
    includeRemediation := true
    lighthouseApiKey := ""
    useAI := false }

/-- A persisted settings snapshot as produced by `JSON.parse`: every field may
be missing (legacy/partial snapshots).  `none` models an absent key. -/
structure PartialSettings where
  accessibilityChecks : Option Bool := none
  heuristicChecks : Option Bool := none
  seoChecks : Option Bool := none
  performanceChecks : Option Bool := none
  exportFormat : Option ExportFormat := none
  includeScreenshots : Option Bool := none
  includeRemediation : Option Bool := none
  lighthouseApiKey : Option String := none
  useAI : Option Bool := none
deriving DecidableEq, Repr

/-- The empty (all-fields-missing) persisted snapshot. -/
def emptyPartialSettings : PartialSettings := {}

/-- Layering of a parsed snapshot over the defaults, modelling
`Object.assign({}, defaultSettings, parsed)` in the `load-settings`
branch of `figma.ui.onmessage`, src/UXAudit/src/code.ts line 82: a field
present in `parsed` wins, a missing field keeps the default. -/
def mergeSettings (defaults : Settings) (parsed : PartialSettings) : Settings :=
  { accessibilityChecks := parsed.accessibilityChecks.getD defaults.accessibilityChecks
    heuristicChecks := parsed.heuristicChecks.getD defaults.heuristicChecks
    seoChecks := parsed.seoChecks.getD defaults.seoChecks
    performanceChecks := parsed.performanceChecks.getD defaults.performanceChecks
    exportFormat := parsed.exportFormat.getD defaults.exportFormat
    includeScreenshots := parsed.includeScreenshots.getD defaults.includeScreenshots
    includeRemediation := parsed.includeRemediation.getD defaults.includeRemediation
    lighthouseApiKey := parsed.lighthouseApiKey.getD defaults.lighthouseApiKey
    useAI := parsed.useAI.getD defaults.useAI }

/-- The standalone settings-module loader, `loadSettings` in
src/unnamed/part_001 lines 35-48: it returns `null` when nothing is stored and
otherwise returns `JSON.parse(settingsJson) as Settings` unchanged — it does
NOT layer the parsed snapshot over the defaults.  The unparsed storage string
and the parse step are abstracted: `stored` is the already-parsed snapshot
(`none` = nothing stored or parse failure, both of which return `null`). -/
def loadSettings (stored : Option PartialSettings) : Option PartialSettings :=
  match stored with
  | none => none
  | some parsed => some parsed

/-- An r,g,b color with channels in [0,1], as used throughout the plugin. -/
structure Color where
  r : ℚ
  g : ℚ
  b : ℚ
deriving DecidableEq, Repr

/-- Opaque white, the fallback background color. -/
def whiteColor : Color := { r := 1, g := 1, b := 1 }

/-- Pure black. -/
def blackColor : Color := { r := 0, g := 0, b := 0 }

/-- Pure red, used in concrete counterexample documents. -/
def redColor : Color := { r := 1, g := 0, b := 0 }

/-- A fill paint.  `isSolid` models `fill.type === 'SOLID'`; `visible` models
the optional `visible` flag (`none` = property absent, which counts as
visible, since the source tests `fill.visible !== false`). -/
structure Paint where
  isSolid : Bool
  visible : Option Bool := none
  color : Color
deriving DecidableEq, Repr

/-- The constant solid white paint (r = g = b = 1) returned by
`findbackground`, src/UXAudit/src/code.ts line 308. -/
def whiteSolidPaint : Paint := { isSolid := true, visible := none, color := whiteColor }

/-- A visible solid black paint, for concrete documents. -/
def solidBlackPaint : Paint := { isSolid := true, visible := none, color := blackColor }

/-- A visible solid red paint, for concrete documents. -/
def solidRedPaint : Paint := { isSolid := true, visible := none, color := redColor }

/-- A non-solid (e.g. gradient) paint, for concrete documents. -/
def gradientPaint : Paint := { isSolid := false, visible := none, color := blackColor }

/-- Node kinds relevant to the audited logic (Figma `SceneNode` types). -/
inductive NodeType where
  | TEXT
  | FRAME
  | GROUP
  | COMPONENT
  | INSTANCE
  | RECTANGLE
  | PAGE
  | DOCUMENT
deriving DecidableEq, Repr

/-- The per-node payload of an element of the document tree.  `id` models
JavaScript reference identity (distinct nodes carry distinct ids);
`fills = none` models a node without a `fills` property (or a non-array
value); `fontSize = none` is the mixed-value sentinel; `reactions` is the
number of interaction reactions; `throws = some msg` models a node whose
property accesses raise an error with message `msg` (malformed element). -/
structure NodeData where
  id : Nat
  ntype : NodeType
  name : String
  x : ℚ := 0
  y : ℚ := 0
  width : ℚ := 0
  height : ℚ := 0
  fills : Option (List Paint) := none
  fontSize : Option ℚ := none
  fontWeight : Option ℚ := none
  characters : String := ""
  reactions : Nat := 0
  throws : Option String := none
deriving DecidableEq, Repr

/-- The document tree: a node is its data plus an ordered list of children. -/
inductive SceneNode where
  | mk (data : NodeData) (children : List SceneNode)

/-- Data payload of a node. -/
def SceneNode.ndata : SceneNode → NodeData
  | .mk d _ => d

/-- Children of a node. -/
def SceneNode.children : SceneNode → List SceneNode
  | .mk _ c => c

/-- Node id (reference identity). -/
def SceneNode.id (n : SceneNode) : Nat := n.ndata.id

/-- Node type. -/
def SceneNode.ntype (n : SceneNode) : NodeType := n.ndata.ntype

/-- Node name. -/
def SceneNode.name (n : SceneNode) : String := n.ndata.name

/-- Node x coordinate. -/
def SceneNode.x (n : SceneNode) : ℚ := n.ndata.x

/-- Node width. -/
def SceneNode.width (n : SceneNode) : ℚ := n.ndata.width

/-- Node height. -/
def SceneNode.height (n : SceneNode) : ℚ := n.ndata.height

/-- Node fills. -/
def SceneNode.fills (n : SceneNode) : Option (List Paint) := n.ndata.fills

/-- Node font size (`none` = mixed sentinel). -/
def SceneNode.fontSize (n : SceneNode) : Option ℚ := n.ndata.fontSize

/-- Node font weight (`none` = mixed sentinel). -/
def SceneNode.fontWeight (n : SceneNode) : Option ℚ := n.ndata.fontWeight

/-- Node text content. -/
def SceneNode.characters (n : SceneNode) : String := n.ndata.characters

/-- Number of interaction reactions on the node. -/
def SceneNode.reactions (n : SceneNode) : Nat := n.ndata.reactions

/-- Failure marker of the node (see `NodeData.throws`). -/
def SceneNode.throws (n : SceneNode) : Option String := n.ndata.throws

/-- JavaScript `Math.round`: round half toward positive infinity. -/
def jsRound (q : ℚ) : Int := ⌊q + 1 / 2⌋

/-- Lower-casing of a string, modelling `String.prototype.toLowerCase` (the
audited inputs are ASCII). -/
def lowerStr (s : String) : String := String.mk (s.data.map Char.toLower)

/-- Auxiliary list-level substring test. -/
def containsSubAux (pat : List Char) : List Char → Bool
  | [] => pat.isEmpty
  | c :: rest => List.isPrefixOf pat (c :: rest) || containsSubAux pat rest

/-- Substring containment, modelling `String.prototype.includes`. -/
def containsStr (s pat : String) : Bool := containsSubAux pat.data s.data

/-- Modelling `String.prototype.startsWith`. -/
def startsWithStr (s pat : String) : Bool := List.isPrefixOf pat.data s.data

/-- Word stripping `word.replace(/[^a-zA-Z]/g, '')` from the jargon scan,
src/UXAudit/src/code.ts line 170. -/
def stripNonLetters (w : String) : String := String.mk (w.data.filter Char.isAlpha)

/-- Auxiliary splitter on whitespace characters. -/
def splitWsAux : List Char → List Char → List (List Char)
  | [], acc => [acc.reverse]
  | c :: cs, acc =>
    if c.isWhitespace then acc.reverse :: splitWsAux cs []
    else splitWsAux cs (c :: acc)

/-- Whitespace splitting, modelling `split(/\s+/)` in the jargon scan.  (This
model splits at every whitespace character rather than at maximal runs, so it
can produce extra empty-string tokens; an empty token never matches a jargon
word, hence the scan below is unaffected.) -/
def splitWhitespace (s : String) : List String :=
  (splitWsAux s.data []).map String.mk

/-- Order-preserving de-duplication, modelling `Array.from(new Set(xs))`
(JavaScript `Set` keeps first-insertion order). -/
def dedupKeepFirst {α : Type} [BEq α] (l : List α) : List α :=
  l.foldl (fun acc v => if acc.contains v then acc else acc ++ [v]) []

/-- The jargon word list from src/UXAudit/src/code.ts line 165.  Note that the
source spells `'API'` in upper case. -/
def jargon : List String :=
  ["syscall", "backend", "cache", "API", "lambda", "framework", "async"]

/-- The jargon scan of src/UXAudit/src/code.ts lines 166-174, applied to the
text contents of the frame's text nodes: lower-case each text, split on
whitespace, strip non-letters from each word, and collect (in encounter
order, with repetitions) the words whose stripped form is in `jargon`. -/
def foundJargon (texts : List String) : List String :=
  texts.foldl
    (fun acc text =>
      (splitWhitespace (lowerStr text)).foldl
        (fun acc2 word =>
          if jargon.contains (stripNonLetters word) then acc2 ++ [word] else acc2)
        acc)
    []

/-- De-duplicated jargon matches, modelling
`Array.from(new Set(foundJargon))`, src/UXAudit/src/code.ts line 178. -/
def uniqueJargon (found : List String) : List String := dedupKeepFirst found

/-- Per-severity deduction of the accessibility scorer, the `switch` in
`calculateAccessibilityScore`, src/unnamed/part_003 lines 63-73. -/
def accessibilityWeight : Severity → Int
  | .error => 15
  | .warning => 8
  | .info => 3

/-- Per-severity deduction of the heuristics scorer, the `switch` in
`calculateHeuristicsScore`, src/unnamed/part_003 lines 93-103. -/
def heuristicWeight : Severity → Int
  | .error => 12
  | .warning => 7
  | .info => 3

/-- `calculateAccessibilityScore` from src/unnamed/part_003 lines 56-79: start
at 100, subtract the per-severity weight for each accessibility issue, and
clamp to [0,100] once at the end. -/
def calculateAccessibilityScore (issues : List Issue) : Int :=
  let score := issues.foldl
    (fun score issue =>
      if issue.type == IssueType.accessibility then score - accessibilityWeight issue.severity
      else score)
    100
  max 0 (min 100 score)

/-- `calculateHeuristicsScore` from src/unnamed/part_003 lines 86-109: start
at 100, subtract the per-severity weight for each heuristic issue, and clamp
to [0,100] once at the end. -/
def calculateHeuristicsScore (issues : List Issue) : Int :=
  let score := issues.foldl
    (fun score issue =>
      if issue.type == IssueType.heuristic then score - heuristicWeight issue.severity
      else score)
    100
  max 0 (min 100 score)

/-- Total accessibility deduction of an issue list: the sum, over the
accessibility issues, of the per-severity weights (specification-side
reformulation of the scorer's fold, used to state its correctness). -/
def accessibilityPenalty (issues : List Issue) : Int :=
  ((issues.filter fun i => i.type == IssueType.accessibility).map
    fun i => accessibilityWeight i.severity).sum

/-- Total heuristic deduction of an issue list (see `accessibilityPenalty`). -/
def heuristicPenalty (issues : List Issue) : Int :=
  ((issues.filter fun i => i.type == IssueType.heuristic).map
    fun i => heuristicWeight i.severity).sum

/-- `getNodeColor` from src/UXAudit/src/accessibility.ts lines 172-194: `null`
when the node has no non-empty fills array, otherwise the color of the first
fill that is solid and not explicitly invisible (`visible !== false`),
`null` when no fill qualifies. -/
def getNodeColor (node : SceneNode) : Option Color :=
  match node.fills with
  | none => none
  | some fills =>
    if fills.isEmpty then none
    else
      match fills.find? (fun f => f.isSolid && f.visible != some false) with
      | some f => some f.color
      | none => none

/-- The ancestor walk of `checkTextContrast`, src/UXAudit/src/accessibility.ts
lines 74-82: starting from the parent (the head of `anc`, nearest ancestor
first), keep walking up while no background color has been found; at each
ancestor with a non-empty fills array take `getNodeColor` of that ancestor
(which may itself be `null`, in which case the walk continues). -/
def resolveBackground : List SceneNode → Option Color
  | [] => none
  | parent :: rest =>
    let bg := match parent.fills with
      | some fills => if fills.isEmpty then none else getNodeColor parent
      | none => none
    match bg with
    | some c => some c
    | none => resolveBackground rest

/-- Modelled from the spec: `effectiveBackground` walks strictly upward
through all ancestors and returns the first ancestor's first solid visible
fill color, and opaque white when no ancestor has one.  Stated with
`List.findSome?` for comparison with the imperative walk of the source. -/
def specEffectiveBackground (anc : List SceneNode) : Color :=
  match anc.findSome? getNodeColor with
  | some c => c
  | none => whiteColor

/-- `findbackground` from src/UXAudit/src/code.ts lines 298-309: it consults
only the immediate parent (the head of `anc`); if that parent has a non-empty
fills array whose FIRST entry is solid, that entry is returned, otherwise the
constant white solid paint. -/
def findbackground (anc : List SceneNode) : Paint :=
  match anc with
  | parent :: _ =>
    match parent.fills with
    | some (backgroundFill :: _) =>
      if backgroundFill.isSolid then backgroundFill else whiteSolidPaint
    | _ => whiteSolidPaint
  | [] => whiteSolidPaint

/-- The large-text test of `checkTextContrast`, src/UXAudit/src/accessibility.ts
lines 93-98: a mixed font size defaults to 14; bold means a numeric font
weight of at least 700; large means size at least 18, or size at least 14 and
bold. -/
def isLargeTextEff (fontSize fontWeight : Option ℚ) : Bool :=
  let fs := fontSize.getD 14
  let isBold := match fontWeight with
    | some w => decide (700 ≤ w)
    | none => false
  decide (18 ≤ fs) || (decide (14 ≤ fs) && isBold)

/-- The required WCAG AA ratio of `checkTextContrast`,
src/UXAudit/src/accessibility.ts line 99: 3 for large text, 4.5 otherwise. -/
def requiredContrast (fontSize fontWeight : Option ℚ) : ℚ :=
  if isLargeTextEff fontSize fontWeight then 3 else 4.5

/-- The low-contrast issue pushed by `checkTextContrast`,
src/UXAudit/src/accessibility.ts lines 102-108 (ratio/threshold string
formatting elided). -/
def lowContrastIssue : Issue :=
  { type := IssueType.accessibility
    severity := Severity.warning
    title := "Low contrast text"
    description := "Text has insufficient contrast ratio for WCAG AA"
    remediation := some "Increase the contrast between text and background." }

/-- `checkTextContrast` from src/UXAudit/src/accessibility.ts lines 62-113:
only text nodes are checked; the text color is the node's first solid visible
fill (skip when absent); the background comes from the ancestor walk,
defaulting to white; an issue is pushed exactly when the computed contrast
ratio is strictly below the required ratio.  `contrastOf` abstracts the
real-valued `calculateContrastRatio` (see the file header). -/
def checkTextContrast (contrastOf : Color → Color → ℚ) (node : SceneNode)
    (anc : List SceneNode) : List Issue :=
  if node.ntype != NodeType.TEXT then []
  else
    match getNodeColor node with
    | none => []
    | some textColor =>
      let bgColor := (resolveBackground anc).getD whiteColor
      let contrastRatio := contrastOf textColor bgColor
      if contrastRatio < requiredContrast node.fontSize node.fontWeight then
        [lowContrastIssue]
      else []

/-- The small-text issue pushed by `checkTextSize`,
src/UXAudit/src/accessibility.ts lines 126-132 (size formatting elided). -/
def smallTextSizeIssue : Issue :=
  { type := IssueType.accessibility
    severity := Severity.warning
    title := "Small text size"
    description := "Text size is below the recommended minimum of 12px"
    remediation := some "Increase text size to at least 12px for better readability." }

/-- `checkTextSize` from src/UXAudit/src/accessibility.ts lines 120-137: an
issue is pushed exactly when the font size is numeric (not the mixed
sentinel) and strictly below 12. -/
def checkTextSize (node : SceneNode) : List Issue :=
  match node.fontSize with
  | some fontSize => if fontSize < 12 then [smallTextSizeIssue] else []
  | none => []

/-- The small-touch-target issue pushed by `checkTouchTargetSize`,
src/UXAudit/src/accessibility.ts lines 154-160 (size formatting elided). -/
def smallTouchTargetIssue : Issue :=
  { type := IssueType.accessibility
    severity := Severity.warning
    title := "Small touch target"
    description := "Interactive element is smaller than the recommended minimum of 44x44px"
    remediation := some "Increase the size of interactive elements to at least 44x44px for better touch accessibility." }

/-- `checkTouchTargetSize` from src/UXAudit/src/accessibility.ts lines
144-165: an issue is pushed exactly when either dimension is below 44. -/
def checkTouchTargetSize (node : SceneNode) : List Issue :=
  if node.width < 44 ∨ node.height < 44 then [smallTouchTargetIssue] else []

/-- The analysis-error issue pushed by the `catch` of `analyzeAccessibility`,
src/UXAudit/src/accessibility.ts lines 47-52. -/
def accessibilityAnalysisError (msg : String) : Issue :=
  { type := IssueType.accessibility
    severity := Severity.error
    title := "Accessibility analysis error"
    description := "Error analyzing accessibility: " ++ msg }

/-- The issues a single node contributes in `analyzeAccessibility`,
src/UXAudit/src/accessibility.ts lines 20-34: the contrast check runs when
the node has a fills array, the size check when the node is a text node, the
touch-target check when the node has at least one reaction. -/
def accessibilityOwnIssues (contrastOf : Color → Color → ℚ) (node : SceneNode)
    (anc : List SceneNode) : List Issue :=
  (if node.fills.isSome then checkTextContrast contrastOf node anc else [])
    ++ (if node.ntype == NodeType.TEXT then checkTextSize node else [])
    ++ (if node.reactions > 0 then checkTouchTargetSize node else [])

mutual

/-- `analyzeAccessibility` from src/UXAudit/src/accessibility.ts lines 12-55:
returns `[]` when accessibility checks are disabled; a node whose property
accesses throw yields the issues collected so far (none, since the failure
hits the first access) plus a single analysis-error issue; otherwise the
node's own issues followed by the recursively collected children's issues.
`anc` is the ancestor chain, nearest first (modelling `node.parent`). -/
def analyzeAccessibility (contrastOf : Color → Color → ℚ) (s : Settings) :
    SceneNode → List SceneNode → List Issue
  | .mk d children, anc =>
    if !s.accessibilityChecks then []
    else
      match d.throws with
      | some msg => [accessibilityAnalysisError msg]
      | none =>
        accessibilityOwnIssues contrastOf (.mk d children) anc
          ++ analyzeAccessibilityList contrastOf s children (SceneNode.mk d children :: anc)

/-- The child loop of `analyzeAccessibility` (lines 37-42 of the source):
each child's issues are appended in order; a failing child contributes its
own error issue and does not abort its siblings. -/
def analyzeAccessibilityList (contrastOf : Color → Color → ℚ) (s : Settings) :
    List SceneNode → List SceneNode → List Issue
  | [], _ => []
  | c :: cs, anc =>
    analyzeAccessibility contrastOf s c anc ++ analyzeAccessibilityList contrastOf s cs anc

end

/-- The inconsistent-spacing issue of `checkConsistency`,
src/UXAudit/src/heuristics.ts lines 94-101 (gap list formatting elided). -/
def inconsistentSpacingIssue (element : String) : Issue :=
  { type := IssueType.heuristic
    severity := Severity.info
    title := "Inconsistent spacing"
    description := "Multiple different spacing values detected between elements"
    remediation := some "Use consistent spacing between elements to improve visual harmony and predictability."
    element := some element }

/-- Stable insertion of a node into a list sorted by x coordinate. -/
def insertByX (c : SceneNode) : List SceneNode → List SceneNode
  | [] => [c]
  | d :: ds => if c.x ≤ d.x then c :: d :: ds else d :: insertByX c ds

/-- Stable sort by ascending x coordinate, modelling
`[...node.children].sort((a, b) => a.x - b.x)` in `checkConsistency`,
src/UXAudit/src/heuristics.ts lines 76-79. -/
def sortByX : List SceneNode → List SceneNode
  | [] => []
  | c :: cs => insertByX c (sortByX cs)

/-- The positive rounded gaps between x-adjacent siblings, the loop of
src/UXAudit/src/heuristics.ts lines 81-90: for each adjacent pair of the
x-sorted children, the gap `curr.x - (prev.x + prev.width)` is recorded
(rounded) when strictly positive. -/
def roundedGaps : List SceneNode → List Int
  | a :: b :: rest =>
    (if b.x - (a.x + a.width) > 0 then [jsRound (b.x - (a.x + a.width))] else [])
      ++ roundedGaps (b :: rest)
  | _ => []

/-- `checkConsistency` from src/UXAudit/src/heuristics.ts lines 65-108: for a
container-like node with more than 2 children, collect the distinct positive
rounded gaps between x-sorted children (a JavaScript `Set`, first-insertion
order) and flag when more than 2 distinct values occur. -/
def checkConsistency (node : SceneNode) : List Issue :=
  if node.children.length > 2 then
    if node.ntype == NodeType.FRAME ∨ node.ntype == NodeType.GROUP
        ∨ node.ntype == NodeType.COMPONENT ∨ node.ntype == NodeType.INSTANCE then
      let spacings := dedupKeepFirst (roundedGaps (sortByX node.children))
      if spacings.length > 2 then [inconsistentSpacingIssue node.name] else []
    else []
  else []

/-- The missing-feedback issue of `checkVisibilityOfSystemStatus`,
src/UXAudit/src/heuristics.ts lines 133-140. -/
def missingFeedbackIssue (element : String) : Issue :=
  { type := IssueType.heuristic
    severity := Severity.info
    title := "Missing feedback mechanism"
    description := "Form appears to lack visual feedback elements for user actions"
    remediation := some "Add visual feedback elements to indicate form status, validation results, or submission progress."
    element := some element }

/-- `checkVisibilityOfSystemStatus` from src/UXAudit/src/heuristics.ts lines
115-146: a node named containing "form" whose children include an
input-like name but no feedback-like name is flagged. -/
def checkVisibilityOfSystemStatus (node : SceneNode) : List Issue :=
  if containsStr (lowerStr node.name) "form" then
    let hasInputs := node.children.any fun child =>
      containsStr (lowerStr child.name) "input" || containsStr (lowerStr child.name) "field"
        || containsStr (lowerStr child.name) "text"
    let hasFeedback := node.children.any fun child =>
      containsStr (lowerStr child.name) "status" || containsStr (lowerStr child.name) "feedback"
        || containsStr (lowerStr child.name) "error" || containsStr (lowerStr child.name) "success"
    if hasInputs && !hasFeedback then [missingFeedbackIssue node.name] else []
  else []

/-- The missing-close issue of `checkUserControlAndFreedom`,
src/UXAudit/src/heuristics.ts lines 170-177. -/
def missingCloseIssue (element : String) : Issue :=
  { type := IssueType.heuristic
    severity := Severity.warning
    title := "Missing close option"
    description := "Modal/dialog appears to lack a visible close or cancel option"
    remediation := some "Add a clearly visible close button to allow users to exit the modal/dialog easily."
    element := some element }

/-- `checkUserControlAndFreedom` from src/UXAudit/src/heuristics.ts lines
153-183: a node named containing "modal"/"dialog"/"popup" without a
close-like child name is flagged.  (The source's fourth pattern is the
mojibake literal for the multiplication sign, kept verbatim.) -/
def checkUserControlAndFreedom (node : SceneNode) : List Issue :=
  if containsStr (lowerStr node.name) "modal" ∨ containsStr (lowerStr node.name) "dialog"
      ∨ containsStr (lowerStr node.name) "popup" then
    let hasCloseButton := node.children.any fun child =>
      containsStr (lowerStr child.name) "close" || containsStr (lowerStr child.name) "cancel"
        || containsStr (lowerStr child.name) "dismiss"
        || containsStr (lowerStr child.name) "Ã—"
        || containsStr (lowerStr child.name) "x"
    if !hasCloseButton then [missingCloseIssue node.name] else []
  else []

/-- The missing-confirmation issue of `checkErrorPrevention`,
src/UXAudit/src/heuristics.ts lines 212-219. -/
def destructiveNoConfirmIssue (element : String) : Issue :=
  { type := IssueType.heuristic
    severity := Severity.warning
    title := "Destructive action without confirmation"
    description := "Delete/remove action appears to lack confirmation step"
    remediation := some "Add a confirmation step before executing destructive actions to prevent accidental data loss."
    element := some element }

/-- `checkErrorPrevention` from src/UXAudit/src/heuristics.ts lines 190-225.
The source condition `(A || B || C) && type === 'INSTANCE' || type ===
'COMPONENT'` parses, by JavaScript precedence, as
`((A || B || C) && type === 'INSTANCE') || type === 'COMPONENT'`; this
parenthesisation is kept.  `anc` is the ancestor chain (head = parent);
siblinghood uses reference identity, modelled by node ids. -/
def checkErrorPrevention (node : SceneNode) (anc : List SceneNode) : List Issue :=
  let destructiveName := containsStr (lowerStr node.name) "delete"
    || containsStr (lowerStr node.name) "remove"
    || containsStr (lowerStr node.name) "destroy"
  if (destructiveName && node.ntype == NodeType.INSTANCE)
      || node.ntype == NodeType.COMPONENT then
    let hasConfirmation := match anc with
      | parent :: _ => parent.children.any fun child =>
          child.id != node.id
            && (containsStr (lowerStr child.name) "confirm"
              || containsStr (lowerStr child.name) "verification"
              || containsStr (lowerStr child.name) "are you sure")
      | [] => false
    if !hasConfirmation then [destructiveNoConfirmIssue node.name] else []
  else []

/-- The missing-label issue of `checkRecognitionOverRecall`,
src/UXAudit/src/heuristics.ts lines 253-260. -/
def missingLabelIssue (element : String) : Issue :=
  { type := IssueType.heuristic
    severity := Severity.warning
    title := "Missing input label"
    description := "Input field appears to lack a visible label"
    remediation := some "Add clear, visible labels to all input fields to help users understand what information is required."
    element := some element }

/-- `checkRecognitionOverRecall` from src/UXAudit/src/heuristics.ts lines
232-266, with the same JavaScript precedence parenthesisation as
`checkErrorPrevention`: `((names) && INSTANCE) || COMPONENT || RECTANGLE`. -/
def checkRecognitionOverRecall (node : SceneNode) (anc : List SceneNode) : List Issue :=
  let inputName := containsStr (lowerStr node.name) "input"
    || containsStr (lowerStr node.name) "field"
    || containsStr (lowerStr node.name) "textbox"
  if (inputName && node.ntype == NodeType.INSTANCE)
      || node.ntype == NodeType.COMPONENT || node.ntype == NodeType.RECTANGLE then
    let hasLabel := match anc with
      | parent :: _ => parent.children.any fun child =>
          child.id != node.id
            && (child.ntype == NodeType.TEXT || containsStr (lowerStr child.name) "label")
      | [] => false
    if !hasLabel then [missingLabelIssue node.name] else []
  else []

/-- The text-heavy issue of `checkAestheticAndMinimalistDesign`,
src/UXAudit/src/heuristics.ts lines 290-297 (count formatting elided). -/
def textHeavyIssue (element : String) : Issue :=
  { type := IssueType.heuristic
    severity := Severity.info
    title := "Text-heavy interface"
    description := "Interface contains many text elements with a large total character count"
    remediation := some "Consider simplifying the interface by reducing text content or breaking it into multiple screens/sections."
    element := some element }

/-- `checkAestheticAndMinimalistDesign` from src/UXAudit/src/heuristics.ts
lines 273-304: a container-like node with more than 5 direct text children
totalling more than 500 characters is flagged. -/
def checkAestheticAndMinimalistDesign (node : SceneNode) : List Issue :=
  if node.ntype == NodeType.FRAME ∨ node.ntype == NodeType.GROUP
      ∨ node.ntype == NodeType.COMPONENT ∨ node.ntype == NodeType.INSTANCE then
    let textNodes := node.children.filter fun child => child.ntype == NodeType.TEXT
    let totalCharacters := (textNodes.map fun t => (t.characters.length : Int)).sum
    if textNodes.length > 5 ∧ totalCharacters > 500 then [textHeavyIssue node.name] else []
  else []

/-- The analysis-error issue pushed by the `catch` of `analyzeHeuristics`,
src/UXAudit/src/heuristics.ts lines 50-55. -/
def heuristicAnalysisError (msg : String) : Issue :=
  { type := IssueType.heuristic
    severity := Severity.error
    title := "Heuristic analysis error"
    description := "Error analyzing heuristics: " ++ msg }

/-- The issues a single node contributes in `analyzeHeuristics`,
src/UXAudit/src/heuristics.ts lines 21-37, in source order. -/
def heuristicOwnIssues (node : SceneNode) (anc : List SceneNode) : List Issue :=
  checkConsistency node
    ++ checkVisibilityOfSystemStatus node
    ++ checkUserControlAndFreedom node
    ++ checkErrorPrevention node anc
    ++ checkRecognitionOverRecall node anc
    ++ checkAestheticAndMinimalistDesign node

mutual

/-- `analyzeHeuristics` from src/UXAudit/src/heuristics.ts lines 12-58:
returns `[]` when heuristic checks are disabled; a node whose property
accesses throw yields a single analysis-error issue (each leaf check
swallows its own failures, so a malformed node contributes no other issue);
otherwise the node's own issues followed by the children's. -/
def analyzeHeuristics (s : Settings) : SceneNode → List SceneNode → List Issue
  | .mk d children, anc =>
    if !s.heuristicChecks then []
    else
      match d.throws with
      | some msg => [heuristicAnalysisError msg]
      | none =>
        heuristicOwnIssues (.mk d children) anc
          ++ analyzeHeuristicsList s children (SceneNode.mk d children :: anc)

/-- The child loop of `analyzeHeuristics` (lines 40-45 of the source). -/
def analyzeHeuristicsList (s : Settings) : List SceneNode → List SceneNode → List Issue
  | [], _ => []
  | c :: cs, anc => analyzeHeuristics s c anc ++ analyzeHeuristicsList s cs anc

end

mutual

/-- Pre-order collection of the text descendants of a node together with
their ancestor chains (nearest ancestor first), modelling
`frame.findAll((n) => n.type === 'TEXT')` in `auditFrame`,
src/UXAudit/src/code.ts line 99, paired with each node's `parent` chain.
`findAll` searches descendants only, so the root itself is not collected. -/
def collectTextNodes : SceneNode → List SceneNode → List (SceneNode × List SceneNode)
  | .mk d children, anc => collectTextNodesList children (SceneNode.mk d children :: anc)

/-- List version of `collectTextNodes`: each child is collected (when it is a
text node) before its own descendants, then its later siblings. -/
def collectTextNodesList : List SceneNode → List SceneNode → List (SceneNode × List SceneNode)
  | [], _ => []
  | c :: cs, anc =>
    (if c.ntype == NodeType.TEXT then [(c, anc)] else [])
      ++ collectTextNodes c anc ++ collectTextNodesList cs anc

end

/-- The per-text-node contrast check of `auditFrame`, src/UXAudit/src/code.ts
lines 112-136: skip unless the node's FIRST fill is solid; the background is
`findbackground` of the parent; flag (by pushing the node's characters, the
string formatting of the ratio being elided) exactly when the computed
contrast ratio is strictly below 4.5, with no font-size distinction.
`contrastOf` abstracts `contrastRatio(relativeLuminance(...), ...)` from
src/src/utils.ts. -/
def auditFrameContrastCheck (contrastOf : Color → Color → ℚ) (node : SceneNode)
    (anc : List SceneNode) : List String :=
  match node.fills with
  | some (firstFill :: _) =>
    if firstFill.isSolid then
      let textColor := firstFill.color
      let background := findbackground anc
      if background.isSolid then
        let contrast := contrastOf textColor background.color
        if contrast < 4.5 then [node.characters] else []
      else []
    else []
  | _ => []

/-- The contrast pass of `auditFrame` over all text descendants of a frame,
src/UXAudit/src/code.ts lines 112-136: the list of flagged text contents. -/
def auditFrameContrast (contrastOf : Color → Color → ℚ) (frame : SceneNode) : List String :=
  (collectTextNodes frame []).foldl
    (fun acc p => acc ++ auditFrameContrastCheck contrastOf p.1 p.2) []

/-- Result record of an audit run, from the `AuditResult` interface in
src/UXAudit/src/types.ts.  Presence of the optional TS fields is modelled
with `Option`; the TS interface declares `accessibility` as required, which
is modelled by the code always producing `some`. -/
structure AuditResult where
  accessibility : Option Int
  heuristics : Option Int := none
  seo : Option Int := none
  performance : Option Int := none
  overall : Int
  issues : List Issue
deriving DecidableEq, Repr

/-- `analyzeFrame` from src/unnamed/part_003 lines 12-49: run both analyzers,
concatenate their issues, compute both category scores, and average the
accessibility score with the heuristics score when heuristic checks are
enabled (`Math.round(overallScore / divisor)`).  The accessibility score is
always included in the result and in the average; the heuristics score is
attached only when the toggle is enabled. -/
def analyzeFrame (contrastOf : Color → Color → ℚ) (s : Settings) (node : SceneNode) :
    AuditResult :=
  let accessibilityIssues := analyzeAccessibility contrastOf s node []
  let heuristicIssues := analyzeHeuristics s node []
  let allIssues := accessibilityIssues ++ heuristicIssues
  let accessibilityScore := calculateAccessibilityScore accessibilityIssues
  let heuristicsScore := calculateHeuristicsScore heuristicIssues
  let overallScore := accessibilityScore + (if s.heuristicChecks then heuristicsScore else 0)
  let divisor : Int := 1 + (if s.heuristicChecks then 1 else 0)
  { accessibility := some accessibilityScore
    heuristics := if s.heuristicChecks then some heuristicsScore else none
    seo := none
    performance := none
    overall := jsRound ((overallScore : ℚ) / (divisor : ℚ))
    issues := allIssues }

/-- One entry of the remote response's `audits` map, from the
`LighthouseResult` interface in src/UXAudit/src/types.ts (`score` is
`number | null`). -/
structure AuditEntry where
  score : Option ℚ
  title : String
  description : String
deriving DecidableEq, Repr

/-- The `categories` part of the remote response; a category absent from the
response (not requested) or with a null score is `none`, matching the
defensive `(x && x.score) || 0` reads of the source. -/
structure LighthouseCategories where
  accessibility : Option ℚ := none
  seo : Option ℚ := none
  performance : Option ℚ := none
  bestPractices : Option ℚ := none
deriving DecidableEq, Repr

/-- The remote Lighthouse response shape consumed by
`processLighthouseResults` (audits as an ordered id-entry list). -/
structure LighthouseResult where
  categories : LighthouseCategories
  audits : List (String × AuditEntry)
deriving DecidableEq, Repr

/-- The static rule-id to remediation-advice table of `generateRemediation`,
src/UXAudit/src/lighthouse.ts lines 143-180. -/
def remediationMap : List (String × String) :=
  [("color-contrast", "Increase the contrast ratio between text and background to at least 4.5:1 for normal text or 3:1 for large text."),
   ("document-title", "Add a descriptive title to the page using the <title> element."),
   ("html-has-lang", "Add a lang attribute to the HTML element to specify the language of the page."),
   ("meta-viewport", "Add a <meta name=\"viewport\"> tag with appropriate content to ensure proper rendering on mobile devices."),
   ("image-alt", "Add alt text to all images to describe their content for screen reader users."),
   ("link-name", "Ensure all links have descriptive text that explains their purpose."),
   ("button-name", "Ensure all buttons have accessible names that describe their action."),
   ("aria-allowed-attr", "Remove invalid ARIA attributes from elements."),
   ("aria-required-attr", "Add required ARIA attributes to elements that use ARIA roles."),
   ("aria-roles", "Use only valid ARIA roles."),
   ("aria-valid-attr-value", "Ensure ARIA attributes have valid values."),
   ("aria-valid-attr", "Ensure ARIA attributes are valid."),
   ("duplicate-id", "Ensure all IDs in the document are unique."),
   ("heading-order", "Structure headings in a logical order (h1, then h2, etc.) without skipping levels."),
   ("html-lang-valid", "Use a valid language code in the lang attribute."),
   ("form-field-multiple-labels", "Ensure form fields have only one associated label."),
   ("frame-title", "Add title attributes to all frames and iframes."),
   ("input-image-alt", "Add alt text to all image inputs."),
   ("label", "Associate labels with form controls using the for attribute or nesting."),
   ("layout-table", "Use CSS for layout instead of tables."),
   ("link-text", "Avoid generic link text like \"click here\" or \"read more\"."),
   ("list", "Use proper list markup (ul, ol, li) for lists."),
   ("listitem", "Ensure list items are contained within proper list elements."),
   ("meta-refresh", "Avoid using meta refresh to redirect or refresh pages."),
   ("object-alt", "Provide alternative text for object elements."),
   ("tabindex", "Avoid using tabindex values greater than 0."),
   ("td-headers-attr", "Use headers attribute on table cells to associate with the appropriate headers."),
   ("th-has-data-cells", "Ensure table headers have associated data cells."),
   ("valid-lang", "Use valid language codes in lang attributes."),
   ("video-caption", "Provide captions for video elements."),
   ("video-description", "Provide audio descriptions for video content."),
   ("meta-description", "Add a meta description tag to improve SEO."),
   ("http-status-code", "Ensure the page returns a valid HTTP status code (200)."),
   ("font-size", "Ensure text is at least 16px or 12pt for readability."),
   ("tap-targets", "Make touch targets at least 44x44 pixels for better mobile usability."),
   ("viewport", "Configure the viewport for responsive design.")]

/-- `generateRemediation` from src/UXAudit/src/lighthouse.ts lines 139-183:
table lookup with a generic default. -/
def generateRemediation (id : String) : String :=
  match remediationMap.lookup id with
  | some advice => advice
  | none => "Review the issue and make appropriate changes to improve accessibility, performance, or SEO."

/-- The rule-id classification of the loop body of
`processLighthouseResults`, src/UXAudit/src/lighthouse.ts lines 89-95:
`seo-` ids to seo, `performance-`/`speed-`/`load-` ids to performance, all
other ids to accessibility. -/
def classifyAuditId (id : String) : IssueType :=
  if startsWithStr id "seo-" then IssueType.seo
  else if startsWithStr id "performance-" || startsWithStr id "speed-"
      || startsWithStr id "load-" then IssueType.performance
  else IssueType.accessibility

/-- The disabled-category skip of the loop body, src/UXAudit/src/lighthouse.ts
lines 98-102. -/
def auditTypeDisabled (s : Settings) (t : IssueType) : Bool :=
  (t == IssueType.accessibility && !s.accessibilityChecks)
    || (t == IssueType.seo && !s.seoChecks)
    || (t == IssueType.performance && !s.performanceChecks)

/-- The severity thresholds of the loop body, src/UXAudit/src/lighthouse.ts
lines 105-113 (the score is non-null on this path). -/
def severityForScore (sc : ℚ) : Severity :=
  if sc < 0.5 then Severity.error
  else if sc < 0.9 then Severity.warning
  else Severity.info

/-- The rest of the body of the `Object.entries(data.audits).forEach` loop of
`processLighthouseResults`, src/UXAudit/src/lighthouse.ts lines 84-123, for
one audit entry: skip entries whose score is exactly 1 or null; skip entries
of a disabled category; otherwise build the issue. -/
def processAuditEntry (s : Settings) (id : String) (audit : AuditEntry) : Option Issue :=
  match audit.score with
  | none => none
  | some sc =>
    if sc = 1 then none
    else
      let t : IssueType := classifyAuditId id
      if auditTypeDisabled s t then none
      else
        some { type := t
               severity := severityForScore sc
               title := audit.title
               description := audit.description
               remediation := if s.includeRemediation then some (generateRemediation id) else none }

/-- `processLighthouseResults` from src/UXAudit/src/lighthouse.ts lines
58-132: category scores are scaled to 0-100 and rounded (the accessibility
score unconditionally; seo/performance only when their toggles are enabled,
otherwise 0); the overall score starts from the accessibility score with
divisor 1 and adds each of seo/performance when enabled; the result carries
seo/performance only when enabled, while accessibility is always present. -/
def processLighthouseResults (data : LighthouseResult) (s : Settings) : AuditResult :=
  let accessibilityScore := jsRound ((data.categories.accessibility.getD 0) * 100)
  let seoScore := if s.seoChecks then jsRound ((data.categories.seo.getD 0) * 100) else 0
  let performanceScore :=
    if s.performanceChecks then jsRound ((data.categories.performance.getD 0) * 100) else 0
  let overallScore := accessibilityScore + (if s.seoChecks then seoScore else 0)
    + (if s.performanceChecks then performanceScore else 0)
  let divisor : Int := 1 + (if s.seoChecks then 1 else 0) + (if s.performanceChecks then 1 else 0)
  { accessibility := some accessibilityScore
    heuristics := none
    seo := if s.seoChecks then some seoScore else none
    performance := if s.performanceChecks then some performanceScore else none
    overall := jsRound ((overallScore : ℚ) / (divisor : ℚ))
    issues := data.audits.foldl
      (fun acc p =>
        match processAuditEntry s p.1 p.2 with
        | some issue => acc ++ [issue]
        | none => acc)
      [] }

/-- The four representative issues of `runFallbackAudit`,
src/UXAudit/src/lighthouse.ts lines 201-229, before filtering. -/
def fallbackIssues : List Issue :=
  [{ type := IssueType.accessibility
     severity := Severity.warning
     title := "Low contrast elements detected"
     description := "Some text elements may have insufficient contrast with their background."
     remediation := some "Ensure all text has a contrast ratio of at least 4.5:1 with its background." },
   { type := IssueType.accessibility
     severity := Severity.error
     title := "Missing image alt text"
     description := "Some images on the page lack alternative text descriptions."
     remediation := some "Add descriptive alt text to all images that convey information." },
   { type := IssueType.seo
     severity := Severity.warning
     title := "Missing meta description"
     description := "The page lacks a meta description tag for search engines."
     remediation := some "Add a concise, descriptive meta description tag to improve SEO." },
   { type := IssueType.performance
     severity := Severity.warning
     title := "Large image files"
     description := "Some images are not optimized for web delivery."
     remediation := some "Compress images and consider using WebP format for better performance." }]

/-- `runFallbackAudit` from src/UXAudit/src/lighthouse.ts lines 191-242: the
fixed baseline result (accessibility 75, seo 80, performance 65, overall 73)
with seo/performance fields attached only when enabled and the
representative issues filtered to the enabled categories. -/
def runFallbackAudit (s : Settings) : AuditResult :=
  { accessibility := some 75
    heuristics := none
    seo := if s.seoChecks then some 80 else none
    performance := if s.performanceChecks then some 65 else none
    overall := 73
    issues := fallbackIssues.filter fun issue =>
      !(issue.type == IssueType.accessibility && !s.accessibilityChecks)
        && !(issue.type == IssueType.seo && !s.seoChecks)
        && !(issue.type == IssueType.performance && !s.performanceChecks) }

/-- `analyzeWebsite` from src/unnamed/part_002 lines 140-154: try the remote
Lighthouse audit first, and on ANY failure of the remote call substitute
`runFallbackAudit`.  The remote call `runLighthouseAudit` (a network fetch)
is abstracted as the `lighthouseResult` argument: `Except.error e` models a
thrown transport/API error with message `e`.  Note that the remote call is
attempted whether or not an API key is configured (`runLighthouseAudit`
merely omits the `key` query parameter when the key is empty,
src/UXAudit/src/lighthouse.ts lines 31-33). -/
def analyzeWebsite (s : Settings) (lighthouseResult : Except String AuditResult) :
    Except String AuditResult :=
  match lighthouseResult with
  | .ok result => .ok result
  | .error _ => .ok (runFallbackAudit s)

/-- The two result shapes produced by `auditWebsite` in
src/UXAudit/src/code.ts: `detailed` from `performDetailedWebsiteAudit`
(scores formatted as strings in the source; the numbers are kept) and
`basic` from `performBasicWebsiteAudit` (plain numbers). -/
inductive WebsiteAudit where
  | detailed (seo accessibility performance : Int) (note : String)
  | basic (accessibility seo performance : Int) (details : String)
deriving DecidableEq, Repr

/-- `performBasicWebsiteAudit` from src/UXAudit/src/code.ts lines 286-296:
the fixed placeholder result, independent of the settings (no category
filtering). -/
def performBasicWebsiteAudit : WebsiteAudit :=
  WebsiteAudit.basic 85 90 75
    "Basic audit complete. For more details, add a Google PageSpeed API key in settings."

/-- `auditWebsite` from src/UXAudit/src/code.ts lines 243-257: with a
non-empty API key, delegate to `performDetailedWebsiteAudit` (the network
call, abstracted as the `detailedResult` argument) and wrap its failure;
with an empty key, skip the remote path entirely and return the basic
placeholder result. -/
def auditWebsite (s : Settings) (detailedResult : Except String WebsiteAudit) :
    Except String WebsiteAudit :=
  if s.lighthouseApiKey ≠ "" then
    match detailedResult with
    | .ok result => .ok result
    | .error e => .error ("Failed to audit website: " ++ e)
  else .ok performBasicWebsiteAudit

/-- A constant contrast function modelling a color pair whose computed WCAG
ratio is exactly 4.0 (the specification's "construct colors to hit this"). -/
def contrastFour : Color → Color → ℚ := fun _ _ => 4

/-- A constant contrast function modelling maximal contrast (black on white,
ratio 21). -/
def contrastTwentyOne : Color → Color → ℚ := fun _ _ => 21

/-- A concrete solid-filled text node of font size 10, normal weight. -/
def sampleText10 : SceneNode :=
  .mk { id := 1, ntype := NodeType.TEXT, name := "Sample", width := 100, height := 30
        fills := some [solidBlackPaint], fontSize := some 10, fontWeight := some 400
        characters := "Sample" } []

/-- A concrete solid-filled text node of font size 24, normal weight. -/
def sampleText24 : SceneNode :=
  .mk { id := 2, ntype := NodeType.TEXT, name := "Sample", width := 100, height := 30
        fills := some [solidBlackPaint], fontSize := some 24, fontWeight := some 400
        characters := "Sample" } []

/-- Data of a plain frame with no fills. -/
def sampleFrameData : NodeData :=
  { id := 3, ntype := NodeType.FRAME, name := "Frame", width := 400, height := 300 }

/-- A frame whose only child is the size-24 text node. -/
def frame24 : SceneNode := .mk sampleFrameData [sampleText24]

/-- An ancestor with no fills property. -/
def ancNoFill : SceneNode :=
  .mk { id := 4, ntype := NodeType.FRAME, name := "Group" } []

/-- An ancestor whose first fill is solid red. -/
def ancRed : SceneNode :=
  .mk { id := 5, ntype := NodeType.FRAME, name := "Background"
        fills := some [solidRedPaint] } []

/-- Settings with the accessibility toggle disabled and everything else at
the defaults. -/
def settingsNoAccessibility : Settings := { defaultSettings with accessibilityChecks := false }

/-- Data of a malformed node whose property accesses throw. -/
def badNodeData : NodeData :=
  { id := 6, ntype := NodeType.TEXT, name := "Broken", throws := some "Cannot read fills" }

/-- A malformed node (see `badNodeData`). -/
def badNode : SceneNode := .mk badNodeData []

/-- Data of a text node with the mixed-font-size sentinel. -/
def mixedSizeTextData : NodeData :=
  { id := 7, ntype := NodeType.TEXT, name := "Mixed", width := 100, height := 30
    fills := some [solidBlackPaint], fontSize := none, fontWeight := some 400
    characters := "Mixed" }

/-- A text node with the mixed-font-size sentinel. -/
def mixedSizeText : SceneNode := .mk mixedSizeTextData []

/-- A remote audit entry with score 0.3, as in the specification's
remote-adapter test property. -/
def seoEntry03 : AuditEntry :=
  { score := some (3 / 10), title := "Meta description"
    description := "The page is missing a meta description." }

/-- The issue `processAuditEntry` produces for `seoEntry03` under the
default settings (the remediation table has no entry for the id
"seo-meta-description", so the generic advice is attached). -/
def seoMetaDescriptionIssue : Issue :=
  { type := IssueType.seo
    severity := Severity.error
    title := "Meta description"
    description := "The page is missing a meta description."
    remediation := some "Review the issue and make appropriate changes to improve accessibility, performance, or SEO." }

/-- A persisted snapshot carrying only the accessibility toggle (legacy
snapshot missing every other field). -/
def partialSnapshotSample : PartialSettings := { accessibilityChecks := some false }

/-- A small concrete issue list for scorer witnesses: one accessibility
warning and one heuristic info issue. -/
def exampleIssues : List Issue := [smallTextSizeIssue, textHeavyIssue "Frame"]

/-- Clamping to [0,100] lands in [0,100]. -/
theorem clamp_100_bounds (z : Int) : 0 ≤ max 0 (min 100 z) ∧ max 0 (min 100 z) ≤ 100 :=
  ⟨le_max_left 0 _, max_le (by norm_num) (min_le_left 100 z)⟩

/-- The scorers' fold subtracts exactly the summed weights of the matching
issues: subtracting along the fold equals subtracting the total at the end. -/
theorem foldl_if_sub (p : Issue → Bool) (w : Issue → Int) :
    ∀ (issues : List Issue) (a : Int),
      issues.foldl (fun sc i => if p i then sc - w i else sc) a
        = a - ((issues.filter p).map w).sum := by
  intro issues
  induction issues with
  | nil => intro a; simp
  | cons i is ih =>
    intro a
    by_cases h : p i
    · simp [h, ih, sub_sub]
    · simp [h, ih]

/-- Claim C4: for every issue list, each per-category score equals 100 minus
the summed per-severity weights of that category's issues (accessibility
error=15, warning=8, info=3; heuristic error=12, warning=7, info=3) with the
clamp to [0,100] applied once at the end of the fold; the result is always
in [0,100]; the empty list scores exactly 100; and issues of other
categories never affect the score (filtering to the category leaves the
score unchanged). -/
theorem claim_C4_scoreCategory (issues : List Issue) :
    calculateAccessibilityScore issues
        = max 0 (min 100 (100 - accessibilityPenalty issues))
    ∧ calculateHeuristicsScore issues
        = max 0 (min 100 (100 - heuristicPenalty issues))
    ∧ 0 ≤ calculateAccessibilityScore issues ∧ calculateAccessibilityScore issues ≤ 100
    ∧ 0 ≤ calculateHeuristicsScore issues ∧ calculateHeuristicsScore issues ≤ 100
    ∧ calculateAccessibilityScore [] = 100 ∧ calculateHeuristicsScore [] = 100
    ∧ calculateAccessibilityScore
        (issues.filter fun i => i.type == IssueType.accessibility)
        = calculateAccessibilityScore issues
    ∧ (∀ extra : Issue, extra.type ≠ IssueType.accessibility →
        calculateAccessibilityScore (issues ++ [extra]) = calculateAccessibilityScore issues)
    ∧ (∀ extra : Issue, extra.type ≠ IssueType.heuristic →
        calculateHeuristicsScore (issues ++ [extra]) = calculateHeuristicsScore issues) := by
  have ha : ∀ l : List Issue, calculateAccessibilityScore l
      = max 0 (min 100 (100 - accessibilityPenalty l)) := by
    intro l
    unfold calculateAccessibilityScore accessibilityPenalty
    rw [foldl_if_sub]
  have hh : ∀ l : List Issue, calculateHeuristicsScore l
      = max 0 (min 100 (100 - heuristicPenalty l)) := by
    intro l
    unfold calculateHeuristicsScore heuristicPenalty
    rw [foldl_if_sub]
  refine ⟨ha issues, hh issues, ?_, ?_, ?_, ?_, by decide, by decide, ?_, ?_, ?_⟩
  · rw [ha]; exact (clamp_100_bounds _).1
  · rw [ha]; exact (clamp_100_bounds _).2
  · rw [hh]; exact (clamp_100_bounds _).1
  · rw [hh]; exact (clamp_100_bounds _).2
  · rw [ha, ha]
    have : accessibilityPenalty (issues.filter fun i => i.type == IssueType.accessibility)
        = accessibilityPenalty issues := by
      unfold accessibilityPenalty
      rw [List.filter_filter]
      simp
    rw [this]
  · intro extra hextra
    rw [ha, ha]
    have : accessibilityPenalty (issues ++ [extra]) = accessibilityPenalty issues := by
      unfold accessibilityPenalty
      rw [List.filter_append]
      have hb : (extra.type == IssueType.accessibility) = false :=
        beq_eq_false_iff_ne.mpr hextra
      have : ([extra].filter fun i => i.type == IssueType.accessibility) = [] := by
        simp [List.filter, hb]
      rw [this]
      simp
    rw [this]
  · intro extra hextra
    rw [hh, hh]
    have : heuristicPenalty (issues ++ [extra]) = heuristicPenalty issues := by
      unfold heuristicPenalty
      rw [List.filter_append]
      have hb : (extra.type == IssueType.heuristic) = false :=
        beq_eq_false_iff_ne.mpr hextra
      have : ([extra].filter fun i => i.type == IssueType.heuristic) = [] := by
        simp [List.filter, hb]
      rw [this]
      simp
    rw [this]

/-- Witness for C4 at a concrete issue list (one accessibility warning, one
heuristic info issue): the fold/clamp characterisation instantiated. -/
theorem claim_C4_scoreCategory_witness :
    calculateAccessibilityScore exampleIssues
        = max 0 (min 100 (100 - accessibilityPenalty exampleIssues))
    ∧ calculateAccessibilityScore exampleIssues = 92
    ∧ calculateHeuristicsScore exampleIssues = 97 :=
  ⟨(claim_C4_scoreCategory exampleIssues).1, by decide, by decide⟩

/-- Claim C7: evaluation of the jargon scan at the specification's test
input.  The claim (and spec) require the unique matches "cache" and "api",
but the scan finds only "cache": the source's jargon list spells the entry
`'API'` in upper case (src/UXAudit/src/code.ts line 165) while every
scanned word has been lower-cased first (line 168), so the lower-cased word
"api" is never equal to the list entry `"API"` and the entry is dead.  The
remaining behaviour (lower-casing, whitespace split, non-letter stripping,
first-encounter-order de-duplication) matches the claim. -/
theorem claim_C7_jargon_scan :
    foundJargon ["We use a cache and an API here"] = ["cache"]
    ∧ uniqueJargon (foundJargon ["We use a cache and an API here"]) = ["cache"]
    ∧ jargon.contains "api" = false
    ∧ jargon.contains "API" = true := by
  refine ⟨by decide, by decide, by decide, by decide⟩

/-- Claim C9 (amended): the plugin's `load-settings` handler layers the
parsed persisted snapshot over the defaults, so every field of the merged
record equals the persisted value when present and the default otherwise;
the standalone settings-module loader (`loadSettings` in src/unnamed/part_001)
however returns the parsed snapshot unmerged (or `null`), so a legacy
snapshot's missing fields stay undefined on that path. -/
theorem claim_C9_settings_load (parsed : PartialSettings) :
    (mergeSettings defaultSettings parsed).accessibilityChecks
        = parsed.accessibilityChecks.getD defaultSettings.accessibilityChecks
    ∧ (mergeSettings defaultSettings parsed).heuristicChecks
        = parsed.heuristicChecks.getD defaultSettings.heuristicChecks
    ∧ (mergeSettings defaultSettings parsed).seoChecks
        = parsed.seoChecks.getD defaultSettings.seoChecks
    ∧ (mergeSettings defaultSettings parsed).performanceChecks
        = parsed.performanceChecks.getD defaultSettings.performanceChecks
    ∧ (mergeSettings defaultSettings parsed).exportFormat
        = parsed.exportFormat.getD defaultSettings.exportFormat
    ∧ (mergeSettings defaultSettings parsed).includeScreenshots
        = parsed.includeScreenshots.getD defaultSettings.includeScreenshots
    ∧ (mergeSettings defaultSettings parsed).includeRemediation
        = parsed.includeRemediation.getD defaultSettings.includeRemediation
    ∧ (mergeSettings defaultSettings parsed).lighthouseApiKey
        = parsed.lighthouseApiKey.getD defaultSettings.lighthouseApiKey
    ∧ (mergeSettings defaultSettings parsed).useAI
        = parsed.useAI.getD defaultSettings.useAI
    ∧ (∀ stored : Option PartialSettings, loadSettings stored = stored) := by
  refine ⟨rfl, rfl, rfl, rfl, rfl, rfl, rfl, rfl, rfl, ?_⟩
  intro stored
  cases stored <;> rfl

/-- Witness for C9 at a concrete legacy snapshot carrying only the
accessibility toggle: the persisted value wins there and the defaults fill
every other field. -/
theorem claim_C9_settings_load_witness :
    (mergeSettings defaultSettings partialSnapshotSample).accessibilityChecks
        = partialSnapshotSample.accessibilityChecks.getD defaultSettings.accessibilityChecks
    ∧ (mergeSettings defaultSettings partialSnapshotSample).accessibilityChecks = false
    ∧ (mergeSettings defaultSettings partialSnapshotSample).seoChecks = true :=
  ⟨(claim_C9_settings_load partialSnapshotSample).1, by decide, by decide⟩

/-- Counterexample to C9 as stated: `loadSettings` (src/unnamed/part_001
lines 35-48) does NOT layer the parsed snapshot over the defaults — loading
an empty legacy snapshot returns it unchanged, with its `accessibilityChecks`
field undefined rather than equal to the default. -/
theorem claim_C9_counterexample :
    loadSettings (some emptyPartialSettings) = some emptyPartialSettings
    ∧ emptyPartialSettings.accessibilityChecks = none :=
  ⟨rfl, rfl⟩

/-- Claim C6 (amended): with an empty (unconfigured) API key the plugin's
`auditWebsite` skips the remote call entirely (the result does not depend on
the remote outcome) and returns the fixed basic placeholder (accessibility
85, seo 90, performance 75, no Settings filtering) — not the 75/80/65/73
baseline.  The 75/80/65/73 baseline with Settings filtering is
`runFallbackAudit`, which `analyzeWebsite` substitutes only when the remote
Lighthouse call fails (regardless of the key). -/
theorem claim_C6_fallback (s : Settings) (detailedResult : Except String WebsiteAudit)
    (e : String) (hkey : s.lighthouseApiKey = "") :
    auditWebsite s detailedResult = Except.ok performBasicWebsiteAudit
    ∧ performBasicWebsiteAudit = WebsiteAudit.basic 85 90 75
        "Basic audit complete. For more details, add a Google PageSpeed API key in settings."
    ∧ (runFallbackAudit s).accessibility = some 75
    ∧ (runFallbackAudit s).seo = (if s.seoChecks then some 80 else none)
    ∧ (runFallbackAudit s).performance = (if s.performanceChecks then some 65 else none)
    ∧ (runFallbackAudit s).overall = 73
    ∧ (∀ i ∈ (runFallbackAudit s).issues,
        (i.type = IssueType.accessibility → s.accessibilityChecks = true)
        ∧ (i.type = IssueType.seo → s.seoChecks = true)
        ∧ (i.type = IssueType.performance → s.performanceChecks = true))
    ∧ analyzeWebsite s (Except.error e) = Except.ok (runFallbackAudit s) := by
  refine ⟨?_, rfl, rfl, rfl, rfl, rfl, ?_, rfl⟩
  · unfold auditWebsite
    rw [hkey]
    simp
  · intro i hi
    obtain ⟨hmem, hpred⟩ := List.mem_filter.mp hi
    fin_cases hmem <;> refine ⟨?_, ?_, ?_⟩ <;> intro ht <;> simp_all

/-- Witness for C6 at the default settings (whose API key is empty): the
basic placeholder is returned whatever the remote outcome would have been,
and the fallback baseline keeps overall 73. -/
theorem claim_C6_fallback_witness :
    auditWebsite defaultSettings (Except.error "offline") = Except.ok performBasicWebsiteAudit
    ∧ (runFallbackAudit defaultSettings).overall = 73 :=
  ⟨(claim_C6_fallback defaultSettings (Except.error "offline") "offline" rfl).1,
   (claim_C6_fallback defaultSettings (Except.error "offline") "offline" rfl).2.2.2.2.2.1⟩

/-- Counterexample to C6 as stated: auditing a website with the default
settings (empty API key) skips the remote call but returns the basic
placeholder with accessibility 85, seo 90, performance 75 and no issue list —
not the claimed 75/80/65/73 baseline with filtered representative issues. -/
theorem claim_C6_counterexample :
    defaultSettings.lighthouseApiKey = ""
    ∧ auditWebsite defaultSettings (Except.error "network unavailable")
        = Except.ok (WebsiteAudit.basic 85 90 75
            "Basic audit complete. For more details, add a Google PageSpeed API key in settings.")
    ∧ (85 : Int) ≠ 75 := by
  refine ⟨rfl, rfl, by decide⟩

/-- Claim C5: in the remote-adapter mapping, an audit entry whose score is
exactly 1 or null produces no issue; any issue produced is classified by
rule-id prefix (`seo-` to seo, `performance-`/`speed-`/`load-` to
performance, all other ids to accessibility) and carries severity error for
score < 0.5, warning for 0.5 ≤ score < 0.9, and info otherwise; and when the
entry's category is enabled an issue is in fact produced. -/
theorem claim_C5_remote_mapping (s : Settings) (id : String) (audit : AuditEntry) :
    ((audit.score = none ∨ audit.score = some 1) → processAuditEntry s id audit = none)
    ∧ (∀ (sc : ℚ) (issue : Issue), audit.score = some sc →
        processAuditEntry s id audit = some issue →
        issue.type = (if startsWithStr id "seo-" then IssueType.seo
          else if startsWithStr id "performance-" || startsWithStr id "speed-"
              || startsWithStr id "load-" then IssueType.performance
          else IssueType.accessibility)
        ∧ issue.severity = (if sc < 0.5 then Severity.error
            else if sc < 0.9 then Severity.warning else Severity.info))
    ∧ (∀ sc : ℚ, audit.score = some sc → sc ≠ 1 →
        s.accessibilityChecks = true → s.seoChecks = true → s.performanceChecks = true →
        processAuditEntry s id audit ≠ none) := by
  refine ⟨?_, ?_, ?_⟩
  · intro h
    rcases h with h | h <;> simp [processAuditEntry, h]
  · intro sc issue hsc hsome
    simp only [processAuditEntry, hsc] at hsome
    by_cases h1 : sc = 1
    · simp [h1] at hsome
    · rw [if_neg h1] at hsome
      by_cases h2 : auditTypeDisabled s (classifyAuditId id) = true
      · rw [if_pos h2] at hsome
        exact absurd hsome (by simp)
      · rw [if_neg h2] at hsome
        have heq := Option.some.inj hsome
        subst heq
        exact ⟨rfl, rfl⟩
  · intro sc hsc h1 hA hSeo hPerf
    have h2 : auditTypeDisabled s (classifyAuditId id) = false := by
      cases h : classifyAuditId id <;> simp [auditTypeDisabled, hA, hSeo, hPerf]
    simp [processAuditEntry, hsc, h1, h2]

/-- Witness for C5 at the specification's concrete entry: the id
"seo-meta-description" with score 0.3 under the default settings (seo checks
enabled) yields an issue of category seo with severity error; the dropped
conjuncts are obtained from the theorem. -/
theorem claim_C5_remote_mapping_witness :
    processAuditEntry defaultSettings "seo-meta-description" seoEntry03
        = some seoMetaDescriptionIssue
    ∧ seoMetaDescriptionIssue.type = IssueType.seo
    ∧ seoMetaDescriptionIssue.severity = Severity.error := by
  have heval : processAuditEntry defaultSettings "seo-meta-description" seoEntry03
      = some seoMetaDescriptionIssue := by
    simp only [processAuditEntry, seoEntry03]
    rw [if_neg (by norm_num : ¬ (3 / 10 : ℚ) = 1), if_neg (by decide)]
    have hsev : severityForScore (3 / 10) = Severity.error := by
      unfold severityForScore
      rw [if_pos (by norm_num)]
    rw [hsev]
    decide
  have h := (claim_C5_remote_mapping defaultSettings "seo-meta-description" seoEntry03).2.1
    (3 / 10) seoMetaDescriptionIssue rfl heval
  refine ⟨heval, ?_, ?_⟩
  · rw [h.1]
    decide
  · rw [h.2]
    rw [if_pos (by norm_num)]

/-- The imperative ancestor walk of `checkTextContrast` computes exactly the
first ancestor (nearest first) whose `getNodeColor` is defined, i.e. the
first ancestor's first solid visible fill color. -/
theorem resolveBackground_eq_findSome (anc : List SceneNode) :
    resolveBackground anc = anc.findSome? getNodeColor := by
  induction anc with
  | nil => rfl
  | cons parent rest ih =>
    have hbg : (match parent.fills with
        | some fills => if fills.isEmpty then none else getNodeColor parent
        | none => none) = getNodeColor parent := by
      cases hf : parent.fills with
      | none => simp [getNodeColor, hf]
      | some fills =>
        by_cases he : fills.isEmpty
        · simp [getNodeColor, hf, he]
        · simp [he]
    simp only [resolveBackground]
    rw [hbg, List.findSome?_cons]
    cases getNodeColor parent <;> simp [ih]

/-- The background returned by `findbackground` is always a solid paint (the
parent's first fill when solid, the white paint otherwise). -/
theorem findbackground_isSolid (anc : List SceneNode) : (findbackground anc).isSolid = true := by
  cases anc with
  | nil => rfl
  | cons parent rest =>
    cases hf : parent.fills with
    | none => simp [findbackground, hf, whiteSolidPaint]
    | some fills =>
      cases fills with
      | nil => simp [findbackground, hf, whiteSolidPaint]
      | cons f0 rest2 =>
        by_cases h : f0.isSolid = true <;> simp [findbackground, hf, h, whiteSolidPaint]

/-- Claim C2 (amended): the accessibility checker's background resolution
(the ancestor walk of `checkTextContrast`) walks strictly upward through all
ancestors, returns the first ancestor's first solid visible fill color, and
falls back to exactly opaque white when no ancestor has one; the frame-audit
path's `findbackground`, however, consults only the immediate parent (its
result never depends on the rest of the chain). -/
theorem claim_C2_effective_background (anc : List SceneNode) :
    (resolveBackground anc).getD whiteColor = specEffectiveBackground anc
    ∧ (anc.findSome? getNodeColor = none →
        (resolveBackground anc).getD whiteColor = whiteColor)
    ∧ (∀ (p : SceneNode) (r₁ r₂ : List SceneNode),
        findbackground (p :: r₁) = findbackground (p :: r₂)) := by
  refine ⟨?_, ?_, ?_⟩
  · unfold specEffectiveBackground
    rw [resolveBackground_eq_findSome]
    cases anc.findSome? getNodeColor <;> rfl
  · intro h
    rw [resolveBackground_eq_findSome, h]
    rfl
  · intro p r₁ r₂
    rfl

/-- Witness for C2 at a concrete chain: a no-fill parent below a solid-red
grandparent resolves to red via the ancestor walk. -/
theorem claim_C2_effective_background_witness :
    (resolveBackground [ancNoFill, ancRed]).getD whiteColor
        = specEffectiveBackground [ancNoFill, ancRed]
    ∧ specEffectiveBackground [ancNoFill, ancRed] = redColor :=
  ⟨(claim_C2_effective_background [ancNoFill, ancRed]).1, rfl⟩

/-- Counterexample to C2 as stated: for a text element whose parent has no
fills but whose grandparent has a solid red first fill, the claimed
resolution ("walk strictly upward through all ancestors") yields red, but
`findbackground` (src/UXAudit/src/code.ts lines 298-309), used by the
frame-audit contrast pass, stops at the immediate parent and returns white. -/
theorem claim_C2_counterexample :
    (findbackground [ancNoFill, ancRed]).color = whiteColor
    ∧ specEffectiveBackground [ancNoFill, ancRed] = redColor
    ∧ redColor ≠ whiteColor := by
  refine ⟨rfl, rfl, ?_⟩
  norm_num [redColor, whiteColor]

/-- Claim C1 (amended): the large-text policy holds in the accessibility
analyzer's `checkTextContrast` — a text element with numeric font size and
weight counts as large iff size ≥ 18 or (size ≥ 14 and weight ≥ 700), the
required ratio is 3 for large text and 4.5 otherwise, and a low-contrast
issue is emitted iff the computed ratio is strictly below the required
ratio.  The frame-audit contrast scan (`auditFrame`), however, flags any
solid-filled text whose computed ratio is below 4.5, with no font-size
distinction, so ratio 4.0 at size 24 is flagged there. -/
theorem claim_C1_large_text_policy (contrastOf : Color → Color → ℚ) (node : SceneNode)
    (anc : List SceneNode) (tc : Color) (fs w : ℚ)
    (htext : node.ntype = NodeType.TEXT) (hcolor : getNodeColor node = some tc)
    (hfs : node.fontSize = some fs) (hw : node.fontWeight = some w) :
    (checkTextContrast contrastOf node anc ≠ []
      ↔ contrastOf tc ((resolveBackground anc).getD whiteColor)
          < (if 18 ≤ fs ∨ (14 ≤ fs ∧ 700 ≤ w) then 3 else 4.5))
    ∧ (∀ (n : SceneNode) (anc2 : List SceneNode) (f : Paint) (fs2 : List Paint),
        n.fills = some (f :: fs2) → f.isSolid = true →
        (auditFrameContrastCheck contrastOf n anc2 ≠ []
          ↔ contrastOf f.color (findbackground anc2).color < 4.5)) := by
  constructor
  · have hreq : requiredContrast node.fontSize node.fontWeight
        = (if 18 ≤ fs ∨ (14 ≤ fs ∧ 700 ≤ w) then 3 else 4.5) := by
      rw [hfs, hw]
      simp only [requiredContrast, isLargeTextEff, Option.getD_some, Bool.or_eq_true,
        Bool.and_eq_true, decide_eq_true_eq]
    have hmain : checkTextContrast contrastOf node anc
        = (if contrastOf tc ((resolveBackground anc).getD whiteColor)
              < (if 18 ≤ fs ∨ (14 ≤ fs ∧ 700 ≤ w) then 3 else 4.5)
           then [lowContrastIssue] else []) := by
      rw [← hreq]
      simp [checkTextContrast, htext, hcolor]
    rw [hmain]
    by_cases hlt : contrastOf tc ((resolveBackground anc).getD whiteColor)
        < (if 18 ≤ fs ∨ (14 ≤ fs ∧ 700 ≤ w) then 3 else 4.5)
    · simp [hlt]
    · simp [hlt]
  · intro n anc2 f fs2 hf hsolid
    have hmain : auditFrameContrastCheck contrastOf n anc2
        = (if contrastOf f.color (findbackground anc2).color < 4.5
           then [n.characters] else []) := by
      simp [auditFrameContrastCheck, hf, hsolid, findbackground_isSolid]
    rw [hmain]
    by_cases hlt : contrastOf f.color (findbackground anc2).color < 4.5
    · simp [hlt]
    · simp [hlt]

/-- Witness for C1 at the spec's concrete inputs: with a contrast function
whose computed ratio is exactly 4, a size-10 normal-weight solid-filled text
IS flagged by `checkTextContrast` (4 < 4.5) while the identical size-24 text
is NOT (4 ≥ 3). -/
theorem claim_C1_large_text_policy_witness :
    checkTextContrast contrastFour sampleText10 [] ≠ []
    ∧ checkTextContrast contrastFour sampleText24 [] = [] := by
  constructor
  · refine ((claim_C1_large_text_policy contrastFour sampleText10 [] blackColor 10 400
      rfl rfl rfl rfl).1).mpr ?_
    rw [if_neg (by norm_num)]
    norm_num [contrastFour]
  · have h := ((claim_C1_large_text_policy contrastFour sampleText24 [] blackColor 24 400
      rfl rfl rfl rfl).1)
    refine not_ne_iff.mp (fun hn => ?_)
    have := h.mp hn
    rw [if_pos (by norm_num)] at this
    norm_num [contrastFour] at this

/-- Counterexample to C1 as stated: the frame-audit contrast scan flags the
size-24 text at computed ratio exactly 4.0 (the claim requires no issue at
that size/ratio: 4.0 ≥ 3, the large-text threshold), because `auditFrame`
(src/UXAudit/src/code.ts lines 112-136) compares every text's ratio against
the flat 4.5 threshold with no font-size distinction. -/
theorem claim_C1_counterexample :
    auditFrameContrast contrastFour frame24 = ["Sample"]
    ∧ sampleText24.fontSize = some 24 := by
  constructor
  · have h45 : (4 : ℚ) < 4.5 := by norm_num
    simp [auditFrameContrast, collectTextNodes, collectTextNodesList, frame24, sampleText24,
      sampleFrameData, auditFrameContrastCheck, findbackground, contrastFour, h45,
      whiteSolidPaint, solidBlackPaint, SceneNode.ntype, SceneNode.fills, SceneNode.ndata,
      SceneNode.characters]
  · rfl

/-- Claim C10: a text element whose font size is the mixed-value sentinel is
contrast-checked exactly as if its font size were 14 (the large-text
decision defaults the mixed sentinel to 14), and the small-text-size check
emits nothing for such an element — only a numeric font size strictly below
12 triggers it. -/
theorem claim_C10_mixed_font_size (contrastOf : Color → Color → ℚ) (d : NodeData)
    (children : List SceneNode) (anc : List SceneNode) (hmixed : d.fontSize = none) :
    checkTextContrast contrastOf (.mk d children) anc
        = checkTextContrast contrastOf (.mk { d with fontSize := some 14 } children) anc
    ∧ checkTextSize (.mk d children) = []
    ∧ (∀ (d2 : NodeData) (ch2 : List SceneNode) (fs : ℚ), d2.fontSize = some fs →
        (checkTextSize (.mk d2 ch2) ≠ [] ↔ fs < 12)) := by
  refine ⟨?_, ?_, ?_⟩
  · obtain ⟨i, t, nm, x, y, wd, ht, fl, fsz, fw, ch, rc, th⟩ := d
    dsimp only at hmixed
    subst hmixed
    rfl
  · simp [checkTextSize, SceneNode.fontSize, SceneNode.ndata, hmixed]
  · intro d2 ch2 fs h2
    have hshape : checkTextSize (.mk d2 ch2)
        = (if fs < 12 then [smallTextSizeIssue] else []) := by
      simp [checkTextSize, SceneNode.fontSize, SceneNode.ndata, h2]
    rw [hshape]
    by_cases hlt : fs < 12
    · simp [hlt]
    · simp [hlt]

/-- Witness for C10 at a concrete mixed-font-size text node. -/
theorem claim_C10_mixed_font_size_witness :
    checkTextContrast contrastFour (.mk mixedSizeTextData []) []
        = checkTextContrast contrastFour (.mk { mixedSizeTextData with fontSize := some 14 } []) []
    ∧ checkTextSize (.mk mixedSizeTextData []) = [] :=
  ⟨(claim_C10_mixed_font_size contrastFour mixedSizeTextData [] [] rfl).1,
   (claim_C10_mixed_font_size contrastFour mixedSizeTextData [] [] rfl).2.1⟩

/-- Claim C8: an element whose analysis raises an internal failure (modelled
by `throws`) yields, from either analyzer, exactly one error-severity
analysis-error issue carrying the failure message (the issues collected so
far for that element — none, the failure hitting its first property access —
plus that single issue); the failure is never propagated (the analyzers
total functions into issue lists), and a parent whose first child fails
still analyzes the remaining siblings: its result is its own issues, the
failing child's single error issue, then the remaining children's issues. -/
theorem claim_C8_error_containment (contrastOf : Color → Color → ℚ) (s : Settings)
    (pd bd : NodeData) (bch rest : List SceneNode) (anc : List SceneNode) (msg : String)
    (hA : s.accessibilityChecks = true) (hH : s.heuristicChecks = true)
    (hbad : bd.throws = some msg) (hok : pd.throws = none) :
    analyzeAccessibility contrastOf s (.mk bd bch) anc = [accessibilityAnalysisError msg]
    ∧ analyzeHeuristics s (.mk bd bch) anc = [heuristicAnalysisError msg]
    ∧ analyzeAccessibility contrastOf s (.mk pd (SceneNode.mk bd bch :: rest)) anc
        = accessibilityOwnIssues contrastOf (.mk pd (SceneNode.mk bd bch :: rest)) anc
          ++ [accessibilityAnalysisError msg]
          ++ analyzeAccessibilityList contrastOf s rest
              (SceneNode.mk pd (SceneNode.mk bd bch :: rest) :: anc)
    ∧ analyzeHeuristics s (.mk pd (SceneNode.mk bd bch :: rest)) anc
        = heuristicOwnIssues (.mk pd (SceneNode.mk bd bch :: rest)) anc
          ++ [heuristicAnalysisError msg]
          ++ analyzeHeuristicsList s rest
              (SceneNode.mk pd (SceneNode.mk bd bch :: rest) :: anc) := by
  have h1 : ∀ anc' : List SceneNode,
      analyzeAccessibility contrastOf s (.mk bd bch) anc' = [accessibilityAnalysisError msg] := by
    intro anc'
    simp [analyzeAccessibility, hA, hbad]
  have h2 : ∀ anc' : List SceneNode,
      analyzeHeuristics s (.mk bd bch) anc' = [heuristicAnalysisError msg] := by
    intro anc'
    simp [analyzeHeuristics, hH, hbad]
  refine ⟨h1 anc, h2 anc, ?_, ?_⟩
  · conv_lhs => rw [analyzeAccessibility]
    rw [hok, hA]
    rw [analyzeAccessibilityList, h1]
    simp
  · conv_lhs => rw [analyzeHeuristics]
    rw [hok, hH]
    rw [analyzeHeuristicsList, h2]
    simp

/-- Witness for C8 at a concrete malformed node under the default settings. -/
theorem claim_C8_error_containment_witness :
    analyzeAccessibility contrastFour defaultSettings badNode []
        = [accessibilityAnalysisError "Cannot read fills"]
    ∧ analyzeHeuristics defaultSettings badNode []
        = [heuristicAnalysisError "Cannot read fills"] :=
  ⟨(claim_C8_error_containment contrastFour defaultSettings sampleFrameData badNodeData [] [] []
      "Cannot read fills" rfl rfl rfl rfl).1,
   (claim_C8_error_containment contrastFour defaultSettings sampleFrameData badNodeData [] [] []
      "Cannot read fills" rfl rfl rfl rfl).2.1⟩

/-- Claim C3 (amended): in a frame audit, the heuristics score field is
present iff the heuristics toggle is enabled, and seo/performance are always
absent; in a remote audit, the seo and performance score fields are present
iff their toggles are enabled.  The overall score is the rounded mean over
the included categories.  However the accessibility score field is ALWAYS
present — and always included in the mean — regardless of the accessibility
toggle (the AuditResult interface declares it required and both
`analyzeFrame` and `processLighthouseResults` compute it unconditionally). -/
theorem claim_C3_category_presence (contrastOf : Color → Color → ℚ) (s : Settings)
    (node : SceneNode) (data : LighthouseResult) :
    (analyzeFrame contrastOf s node).accessibility
        = some (calculateAccessibilityScore (analyzeAccessibility contrastOf s node []))
    ∧ ((analyzeFrame contrastOf s node).heuristics = none ↔ s.heuristicChecks = false)
    ∧ (analyzeFrame contrastOf s node).seo = none
    ∧ (analyzeFrame contrastOf s node).performance = none
    ∧ (analyzeFrame contrastOf s node).overall
        = jsRound (((calculateAccessibilityScore (analyzeAccessibility contrastOf s node [])
              + (if s.heuristicChecks
                  then calculateHeuristicsScore (analyzeHeuristics s node []) else 0) : Int) : ℚ)
            / ((1 + (if s.heuristicChecks then 1 else 0) : Int) : ℚ))
    ∧ (processLighthouseResults data s).accessibility
        = some (jsRound ((data.categories.accessibility.getD 0) * 100))
    ∧ ((processLighthouseResults data s).seo = none ↔ s.seoChecks = false)
    ∧ ((processLighthouseResults data s).performance = none ↔ s.performanceChecks = false) := by
  refine ⟨rfl, ?_, rfl, rfl, rfl, rfl, ?_, ?_⟩
  · cases hh : s.heuristicChecks <;> simp [analyzeFrame, hh]
  · cases hseo : s.seoChecks <;> simp [processLighthouseResults, hseo]
  · cases hp : s.performanceChecks <;> simp [processLighthouseResults, hp]

/-- Witness for C3 at concrete inputs (default settings, the size-10 sample
text, an empty remote response): the heuristics field is present and the seo
field follows its toggle. -/
theorem claim_C3_category_presence_witness :
    ((analyzeFrame contrastTwentyOne defaultSettings sampleText10).heuristics = none
      ↔ defaultSettings.heuristicChecks = false)
    ∧ ((processLighthouseResults { categories := {}, audits := [] } defaultSettings).seo = none
      ↔ defaultSettings.seoChecks = false) :=
  ⟨(claim_C3_category_presence contrastTwentyOne defaultSettings sampleText10
      { categories := {}, audits := [] }).2.1,
   (claim_C3_category_presence contrastTwentyOne defaultSettings sampleText10
      { categories := {}, audits := [] }).2.2.2.2.2.2.1⟩

/-- Counterexample to C3 as stated: with the accessibility toggle disabled,
the frame audit still returns a present accessibility score (100, since the
disabled analyzer collects no issues) — the claim requires the field to be
absent and excluded from the average when its toggle is false. -/
theorem claim_C3_counterexample :
    settingsNoAccessibility.accessibilityChecks = false
    ∧ (analyzeFrame contrastTwentyOne settingsNoAccessibility sampleText10).accessibility
        = some 100 := by
  refine ⟨rfl, ?_⟩
  have hacc : analyzeAccessibility contrastTwentyOne settingsNoAccessibility sampleText10 [] = [] := by
    simp [analyzeAccessibility, sampleText10, settingsNoAccessibility, defaultSettings]
  have : (analyzeFrame contrastTwentyOne settingsNoAccessibility sampleText10).accessibility
      = some (calculateAccessibilityScore []) := by
    rw [← hacc]
    rfl
  rw [this]
  decide
